import Mathlib

/-!
Shallow embedding of the Trenord train-tracking integration
(`homeassistant/components/trenord`): the response parsing in
`trenord_apis.py` (`TrenordApi.get_train`, `_get_status`,
`_get_current_station`, `_parse_datetime`) and the polling scheduler and
update coordinator in `sensor.py` (`TrainUpdateCoordinator._is_polling_allowed`,
`_async_update_data`).

Python `dict` keys that the code may find absent are modelled as `Option`
fields (`none` = key absent); a `KeyError`/`IndexError` raised by the code is
modelled as `Except.error`.  JSON `null` inside a present key is a nested
`Option` (so `some none` = key present with value null).
-/

/-! ## Timezone-aware datetimes

The code pins every instant to the single reference timezone Europe/Rome
(`pytz.timezone("Europe/Rome")` in the parser, `tz.gettz("Europe/Rome")` in
the scheduler), so aware-datetime comparison and subtraction coincide with
civil comparison and subtraction; the timezone is modelled as a fixed offset.
A Python `datetime` is its civil fields; ordering and `timedelta`s go through
conversion to a second count using the standard civil-from-days calendar
algorithm. -/

structure PyDateTime where
  year : Int
  month : Int
  day : Int
  hour : Int
  minute : Int
  second : Int
deriving DecidableEq, Repr

/-- Days since 1970-01-01 of a civil date (proleptic Gregorian calendar). -/
def daysFromCivil (y m d : Int) : Int :=
  let y2 := if m ≤ 2 then y - 1 else y
  let era := (if 0 ≤ y2 then y2 else y2 - 399) / 400
  let yoe := y2 - era * 400
  let mp := (m + 9) % 12
  let doy := (153 * mp + 2) / 5 + d - 1
  let doe := yoe * 365 + yoe / 4 - yoe / 100 + doy
  era * 146097 + doe - 719468

/-- Seconds since the epoch of a `PyDateTime`; Python's aware-datetime
comparison and subtraction are comparison and subtraction of this value. -/
def toSec (dt : PyDateTime) : Int :=
  daysFromCivil dt.year dt.month dt.day * 86400
    + dt.hour * 3600 + dt.minute * 60 + dt.second

/-! ## Domain model (`trenord_apis.py`) -/

/-- `TrainStatus` enum. -/
inductive TrainStatus where
  | NONE
  | TRAVELLING
  | CANCELLED
deriving DecidableEq, Repr

/-- `TrainStationType` enum. -/
inductive TrainStationType where
  | ORIGIN
  | STOP
  | DESTINATION
deriving DecidableEq, Repr

/-- DTO `TrenordTrainSuppression`. -/
structure TrenordTrainSuppression where
  from_station_id : String
  from_station_name : String
  to_station_id : String
  to_station_name : String
deriving DecidableEq, Repr

/-- DTO `TrenordTrainCurrentStation`. -/
structure TrenordTrainCurrentStation where
  station_id : String
  name : String
  station_type : TrainStationType
  arrival_time : Option PyDateTime
  departure_time : Option PyDateTime
deriving DecidableEq, Repr

/-- DTO `TrenordTrain`. -/
structure TrenordTrain where
  train_id : String
  name : String
  status : TrainStatus
  delay : Int
  departure_time : PyDateTime
  departure_station_id : String
  departure_station_name : String
  arrival_time : PyDateTime
  suppression : Option TrenordTrainSuppression
  current_station : Option TrenordTrainCurrentStation
deriving DecidableEq, Repr

/-! ## Upstream payload model

Shape of the JSON the endpoint returns, restricted to the keys `get_train`
reads.  Keys the code tests with `in` (or that may be missing) are `Option`s. -/

/-- The `actual_data` object of a pass-list checkpoint; the two keys the code
tests for may each be absent. -/
structure ActualData where
  actual_station_mir : Option String
  actual_station_name : Option String
deriving DecidableEq, Repr

/-- One checkpoint of `entry["pass_list"]`. -/
structure PassEntry where
  cancelled : Bool
  actual_data : Option ActualData
  type : String
deriving DecidableEq, Repr

/-- The nested `train` object; `status`, `delay` and the suppression keys may
be absent, and a present `delay` may be JSON null. -/
structure TrainObj where
  line : String
  train_name : String
  direction : String
  status : Option String
  delay : Option (Option Int)
  suppression_start : Option String
  suppression_start_mir : Option String
  suppression_end : Option String
  suppression_end_mir : Option String
deriving DecidableEq, Repr

/-- A `dep_station` / `arr_station` object. -/
structure StationObj where
  station_id : String
  station_ori_name : String
deriving DecidableEq, Repr

/-- One element of `journey_list`. -/
structure JourneyEntry where
  train : TrainObj
  pass_list : List PassEntry
deriving DecidableEq, Repr

/-- One record of the top-level JSON array. -/
structure JsonRecord where
  date : String
  dep_time : String
  arr_time : String
  cancelled : Bool
  dep_station : StationObj
  arr_station : StationObj
  journey_list : List JourneyEntry
deriving DecidableEq, Repr

/-! ## `TrenordApi` -/

/-- Decimal value of a digit string, as a character list. -/
def digitsToNat (l : List Char) : Nat :=
  l.foldl (fun acc c => acc * 10 + (c.toNat - 48)) 0

/-- Python's `s.lower().capitalize()`: everything lowercased, then the first
character uppercased. -/
def pyLowerCapitalize (s : String) : String :=
  match s.data.map Char.toLower with
  | [] => s
  | c :: cs => String.mk (c.toUpper :: cs)

/-- `TrenordApi._parse_datetime`: `strptime(f"{datestr}{time}", "%Y%m%d%H:%M:%S")`
with `tzinfo` replaced by the reference timezone.  Field extraction follows the
fixed format positions over the concatenated character list; inputs are the
well-formed date/time strings of the API (format violations, which `strptime`
would raise on, are out of scope of the claims). -/
def pyParseDatetime (datestr time : String) : PyDateTime :=
  let l := (datestr ++ time).data
  { year := digitsToNat (l.take 4)
  , month := digitsToNat ((l.drop 4).take 2)
  , day := digitsToNat ((l.drop 6).take 2)
  , hour := digitsToNat ((l.drop 8).take 2)
  , minute := digitsToNat ((l.drop 11).take 2)
  , second := digitsToNat ((l.drop 14).take 2) }

/-- The `takewhile` predicate of `_get_current_station`:
`not x["cancelled"] and "actual_data" in x and "actual_station_mir" in
x["actual_data"] and "actual_station_name" in x["actual_data"]`. -/
def checkpointConfirmed (x : PassEntry) : Bool :=
  !x.cancelled &&
    match x.actual_data with
    | none => false
    | some ad => ad.actual_station_mir.isSome && ad.actual_station_name.isSome

/-- The station-type conditional of `_get_current_station`:
`DESTINATION if type == "D" else ORIGIN if type == "O" else STOP`. -/
def stationTypeOf (t : String) : TrainStationType :=
  if t = "D" then TrainStationType.DESTINATION
  else if t = "O" then TrainStationType.ORIGIN
  else TrainStationType.STOP

/-- Building the `TrenordTrainCurrentStation` from the last passed checkpoint:
the code reads `x["actual_data"]["actual_station_mir"]` and
`...["actual_station_name"]` (a `KeyError`, impossible for a confirmed
checkpoint, is modelled as `none`) and passes `None, None` for the two time
fields. -/
def mkCurrentStation (x : PassEntry) : Option TrenordTrainCurrentStation :=
  match x.actual_data with
  | none => none
  | some ad =>
    match ad.actual_station_mir, ad.actual_station_name with
    | some mir, some nm =>
        some { station_id := mir
             , name := nm
             , station_type := stationTypeOf x.type
             , arrival_time := none
             , departure_time := none }
    | _, _ => none

/-- `TrenordApi._get_current_station`: `takewhile` of the confirmation
predicate over the pass list, `None` when no checkpoint passed, otherwise the
station built from the last passed checkpoint (`passed_stations[-1]`). -/
def getCurrentStation (train_pass_list : List PassEntry) : Option TrenordTrainCurrentStation :=
  match (train_pass_list.takeWhile checkpointConfirmed).getLast? with
  | none => none
  | some last => mkCurrentStation last

/-- `TrenordApi._get_status`: the four-way precedence over current station,
full-journey suppression, cancelled flag and raw status code. -/
def getStatus (train_status : Option String) (cancelled : Bool)
    (departure_station_id arrival_station_id : String)
    (suppression : Option TrenordTrainSuppression)
    (current_station : Option TrenordTrainCurrentStation) : TrainStatus :=
  if current_station.any (fun cs => cs.station_type == TrainStationType.DESTINATION) then
    TrainStatus.NONE
  else if suppression.any (fun s =>
      s.from_station_id == departure_station_id && s.to_station_id == arrival_station_id) then
    TrainStatus.CANCELLED
  else if cancelled then
    TrainStatus.CANCELLED
  else if train_status == some "V" then
    TrainStatus.TRAVELLING
  else
    TrainStatus.NONE

/-- The suppression block of `get_train`: a suppression is built only when the
`suppression_start` key is present, and then the three companion keys are read
unconditionally (their absence is a `KeyError`).  Constructor argument order is
`(start_mir, start, end_mir, end)` as in the source. -/
def buildSuppression (train : TrainObj) : Except String (Option TrenordTrainSuppression) :=
  match train.suppression_start with
  | none => Except.ok none
  | some startName =>
    match train.suppression_start_mir with
    | none => Except.error "KeyError: suppression_start_mir"
    | some startMir =>
      match train.suppression_end_mir with
      | none => Except.error "KeyError: suppression_end_mir"
      | some endMir =>
        match train.suppression_end with
        | none => Except.error "KeyError: suppression_end"
        | some endName =>
          Except.ok (some
            { from_station_id := startMir
            , from_station_name := startName
            , to_station_id := endMir
            , to_station_name := endName })

/-- Zero-padded two-digit rendering used by `strftime`. -/
def twoDigit (n : Int) : String :=
  if n < 10 then "0" ++ toString n else toString n

/-- `departure_time.strftime('%H:%M')`. -/
def strftimeHM (dt : PyDateTime) : String :=
  twoDigit dt.hour ++ ":" ++ twoDigit dt.minute

/-- The body of `TrenordApi.get_train` on one JSON record (the element
`response.json()[0]`): field extraction, suppression, current station, status
classification, delay normalization (`0 if train["delay"] is None else
train["delay"]`, raising `KeyError` when the key is absent) and DTO
construction. -/
def getTrainFromRecord (train_id : String) (json : JsonRecord) :
    Except String (Option TrenordTrain) :=
  match json.journey_list with
  | [] => Except.error "IndexError: journey_list"
  | entry :: _ =>
    let train := entry.train
    let line := train.line
    let name := train.train_name
    let direction := pyLowerCapitalize train.direction
    let departure_time := pyParseDatetime json.date json.dep_time
    let arrival_time := pyParseDatetime json.date json.arr_time
    let departure_station := pyLowerCapitalize json.dep_station.station_ori_name
    let departure_station_id := json.dep_station.station_id
    let arrival_station_id := json.arr_station.station_id
    match buildSuppression train with
    | Except.error e => Except.error e
    | Except.ok suppression =>
      let current_station := getCurrentStation entry.pass_list
      match train.delay with
      | none => Except.error "KeyError: delay"
      | some delayVal =>
        Except.ok (some
          { train_id := train_id
          , name := line ++ " " ++ name ++ " - " ++ strftimeHM departure_time
              ++ " da " ++ departure_station ++ " per " ++ direction
          , status := getStatus train.status json.cancelled
              departure_station_id arrival_station_id suppression current_station
          , delay := delayVal.getD 0
          , departure_time := departure_time
          , departure_station_id := departure_station_id
          , departure_station_name := departure_station
          , arrival_time := arrival_time
          , suppression := suppression
          , current_station := current_station })

/-- `TrenordApi.get_train` after a successful HTTP round trip: an empty JSON
array is the `NotFound` outcome (`Except.ok none`), otherwise the first record
is parsed. -/
def getTrain (train_id : String) (response : List JsonRecord) :
    Except String (Option TrenordTrain) :=
  match response with
  | [] => Except.ok none
  | json :: _ => getTrainFromRecord train_id json

/-! ## `sensor.py`: scheduler and coordinator -/

/-- The mutable fields of `TrainUpdateCoordinator`: the last value returned by
`_async_update_data` (`self.data`, held by the host coordinator base class)
and the stored schedule instants. -/
structure CoordinatorState where
  train_id : String
  name : String
  data : Option TrenordTrain
  departure_time : PyDateTime
  arrival_time : PyDateTime
deriving DecidableEq, Repr

/-- `TrainUpdateCoordinator._is_polling_allowed`, with `now` passed explicitly
in place of `datetime.now(tz.gettz("Europe/Rome"))`.  The branches mirror the
source: the `now.day != self.departure_time.day` day-of-month test, then the
`self.data is not None` early `True` (whose comment says "always allow first
polling"), then the strict 30-minute pre-departure and 10-minute post-arrival
windows (`timedelta` comparisons in seconds). -/
def isPollingAllowed (s : CoordinatorState) (now : PyDateTime) : Bool :=
  if now.day ≠ s.departure_time.day then
    true
  else if s.data.isSome then
    true
  else if toSec s.departure_time > toSec now then
    toSec s.departure_time - toSec now < 30 * 60
  else if toSec now > toSec s.arrival_time then
    toSec now - toSec s.arrival_time < 10 * 60
  else
    true

/-- `TrainUpdateCoordinator._async_update_data` on a completed fetch, returning
the next coordinator state and the published value.  When polling is allowed
and the fetch yields a train, the stored schedule instants are overwritten and
the train returned; otherwise `self.data` is returned unchanged.  Modelled from
the spec where the host is involved: the `DataUpdateCoordinator` base class
(outside this integration) stores the returned value as `self.data` and
publishes it to subscribers, so the state component records the return value
as the new `data`. -/
def asyncUpdateData (s : CoordinatorState) (now : PyDateTime)
    (fetched : Option TrenordTrain) : CoordinatorState × Option TrenordTrain :=
  if isPollingAllowed s now then
    match fetched with
    | some train =>
        ({ s with
            data := some train
            departure_time := train.departure_time
            arrival_time := train.arrival_time }, some train)
    | none => ({ s with data := s.data }, s.data)
  else
    ({ s with data := s.data }, s.data)

/-! ## Helper lemmas and concrete fixtures -/

theorem takeWhile_append_of_all {α : Type} (p : α → Bool) (l₁ l₂ : List α)
    (h : ∀ x ∈ l₁, p x = true) :
    (l₁ ++ l₂).takeWhile p = l₁ ++ l₂.takeWhile p := by
  induction l₁ with
  | nil => simp
  | cons a t ih =>
    have ha : p a = true := h a (List.mem_cons_self a t)
    have ih2 := ih (fun x hx => h x (List.mem_cons_of_mem a hx))
    simp [List.takeWhile_cons, ha, ih2]

theorem mkCurrentStation_times_none (x : PassEntry) (s : TrenordTrainCurrentStation)
    (h : mkCurrentStation x = some s) :
    s.arrival_time = none ∧ s.departure_time = none := by
  unfold mkCurrentStation at h
  split at h
  · exact Option.noConfusion h
  · split at h
    · cases h
      exact ⟨rfl, rfl⟩
    · exact Option.noConfusion h

/-- A confirmed checkpoint fixture. -/
def cpConfirmed (mir nm t : String) : PassEntry :=
  { cancelled := false
  , actual_data := some { actual_station_mir := some mir, actual_station_name := some nm }
  , type := t }

/-- An unconfirmed checkpoint fixture (cancelled, no actual data). -/
def cpUnconfirmed : PassEntry :=
  { cancelled := true, actual_data := none, type := "S" }

/-- A current-station fixture of type DESTINATION. -/
def destStation : TrenordTrainCurrentStation :=
  { station_id := "MI", name := "Milano", station_type := TrainStationType.DESTINATION
  , arrival_time := none, departure_time := none }

/-- A suppression fixture spanning stations D1 → A1. -/
def fullSup : TrenordTrainSuppression :=
  { from_station_id := "D1", from_station_name := "DepName"
  , to_station_id := "A1", to_station_name := "ArrName" }

/-! ## Claims -/

/-- Claim C2: if `current_station` is present and its type is `DESTINATION`,
`_get_status` returns `NONE`, regardless of the cancelled flag, the
suppression and the raw status code. -/
theorem status_destination_wins (train_status : Option String) (cancelled : Bool)
    (dep arr : String) (sup : Option TrenordTrainSuppression)
    (cs : TrenordTrainCurrentStation)
    (h : cs.station_type = TrainStationType.DESTINATION) :
    getStatus train_status cancelled dep arr sup (some cs) = TrainStatus.NONE := by
  simp [getStatus, h]

/-- Witness for C2: a destination current station together with
`cancelled = true` and raw status `"V"` still classifies as `NONE`. -/
theorem status_destination_wins_witness :
    getStatus (some "V") true "D1" "A1" none (some destStation) = TrainStatus.NONE :=
  status_destination_wins (some "V") true "D1" "A1" none destStation rfl

/-- Claim C5: when the current station is absent or not a destination, a
suppression spanning the whole journey (`from_station_id` = departure id and
`to_station_id` = arrival id) makes `_get_status` return `CANCELLED`,
regardless of the cancelled flag and the raw status code. -/
theorem status_full_suppression_cancelled (train_status : Option String)
    (cancelled : Bool) (dep arr : String) (sup : TrenordTrainSuppression)
    (cso : Option TrenordTrainCurrentStation)
    (hcs : ∀ cs, cso = some cs → cs.station_type ≠ TrainStationType.DESTINATION)
    (hfrom : sup.from_station_id = dep) (hto : sup.to_station_id = arr) :
    getStatus train_status cancelled dep arr (some sup) cso = TrainStatus.CANCELLED := by
  unfold getStatus
  cases cso with
  | none => simp [hfrom, hto]
  | some cs =>
    have hne := hcs cs rfl
    simp [hne, hfrom, hto]

/-- Witness for C5: a full-route suppression with `cancelled = false` and raw
status `"V"` classifies as `CANCELLED`. -/
theorem status_full_suppression_cancelled_witness :
    getStatus (some "V") false "D1" "A1" (some fullSup) none = TrainStatus.CANCELLED :=
  status_full_suppression_cancelled (some "V") false "D1" "A1" fullSup none
    (fun _cs hcs => nomatch hcs) rfl rfl

/-- Claim C3: `_get_current_station` returns the station built from the last
checkpoint of the longest confirmed prefix of the pass list — scanning stops
at the first unconfirmed checkpoint, so later checkpoints (confirmed or not)
are never considered, and an all-confirmed list uses its last element; an
empty confirmed prefix yields `none`. -/
theorem tracker_longest_confirmed :
    (∀ (p rest : List PassEntry) (c : PassEntry),
        (∀ x ∈ p, checkpointConfirmed x = true) → checkpointConfirmed c = false →
        getCurrentStation (p ++ c :: rest) = p.getLast?.bind mkCurrentStation)
    ∧ (∀ l : List PassEntry, (∀ x ∈ l, checkpointConfirmed x = true) →
        getCurrentStation l = l.getLast?.bind mkCurrentStation) := by
  constructor
  · intro p rest c hp hc
    unfold getCurrentStation
    rw [takeWhile_append_of_all _ _ _ hp]
    have hstop : (c :: rest).takeWhile checkpointConfirmed = [] := by
      simp [List.takeWhile_cons, hc]
    rw [hstop, List.append_nil]
    cases hl : p.getLast? with
    | none => simp
    | some last => simp
  · intro l hl
    unfold getCurrentStation
    have h1 := takeWhile_append_of_all checkpointConfirmed l [] hl
    simp only [List.append_nil, List.takeWhile_nil] at h1
    rw [h1]
    cases hg : l.getLast? with
    | none => simp
    | some last => simp

/-- Witness for C3: on [confirmed, confirmed, unconfirmed, confirmed] the
tracked current station is built from the second checkpoint, not the fourth. -/
theorem tracker_longest_confirmed_witness :
    getCurrentStation [cpConfirmed "MI1" "Station1" "O", cpConfirmed "MI2" "Station2" "S",
        cpUnconfirmed, cpConfirmed "MI4" "Station4" "D"]
      = some { station_id := "MI2", name := "Station2"
             , station_type := TrainStationType.STOP
             , arrival_time := none, departure_time := none } := by
  have h := tracker_longest_confirmed.1
      [cpConfirmed "MI1" "Station1" "O", cpConfirmed "MI2" "Station2" "S"]
      [cpConfirmed "MI4" "Station4" "D"] cpUnconfirmed (by decide) (by decide)
  simpa [cpConfirmed, mkCurrentStation, stationTypeOf] using h

/-- Claim C10: any current station returned by `_get_current_station` has both
optional time fields `none`: the tracker never populates `arrival_time` or
`departure_time` from the checkpoint data. -/
theorem tracker_times_always_none (l : List PassEntry) (s : TrenordTrainCurrentStation)
    (h : getCurrentStation l = some s) :
    s.arrival_time = none ∧ s.departure_time = none := by
  unfold getCurrentStation at h
  cases hl : (l.takeWhile checkpointConfirmed).getLast? with
  | none => rw [hl] at h; exact Option.noConfusion h
  | some last =>
    rw [hl] at h
    exact mkCurrentStation_times_none last s h

/-- Witness for C10: the station tracked on a single confirmed origin
checkpoint has no arrival or departure time. -/
theorem tracker_times_always_none_witness :
    (⟨"MI1", "Station1", TrainStationType.ORIGIN, none, none⟩ :
        TrenordTrainCurrentStation).arrival_time = none
    ∧ (⟨"MI1", "Station1", TrainStationType.ORIGIN, none, none⟩ :
        TrenordTrainCurrentStation).departure_time = none :=
  tracker_times_always_none [cpConfirmed "MI1" "Station1" "O"]
    ⟨"MI1", "Station1", TrainStationType.ORIGIN, none, none⟩ (by decide)

/-- A parsed-train fixture used as a stored prior snapshot. -/
def sampleTrain : TrenordTrain :=
  { train_id := "2641"
  , name := "S11 2641 - 12:00 da Milano per Chiasso"
  , status := TrainStatus.NONE
  , delay := 0
  , departure_time := ⟨2024, 5, 1, 12, 0, 0⟩
  , departure_station_id := "D1"
  , departure_station_name := "Milano"
  , arrival_time := ⟨2024, 5, 1, 13, 0, 0⟩
  , suppression := none
  , current_station := none }

/-- Coordinator state with no prior snapshot, departure at 13:00 on
2024-05-01 and arrival at 14:00. -/
def freshState : CoordinatorState :=
  { train_id := "2641", name := "S11", data := none
  , departure_time := ⟨2024, 5, 1, 13, 0, 0⟩
  , arrival_time := ⟨2024, 5, 1, 14, 0, 0⟩ }

/-- Coordinator state holding a prior snapshot, departure at 12:00 on
2024-05-01 and arrival at 13:00. -/
def warmState : CoordinatorState :=
  { train_id := "2641", name := "S11", data := some sampleTrain
  , departure_time := ⟨2024, 5, 1, 12, 0, 0⟩
  , arrival_time := ⟨2024, 5, 1, 13, 0, 0⟩ }

/-- Coordinator state with no prior snapshot whose schedule lies on
2024-01-05. -/
def janState : CoordinatorState :=
  { train_id := "2641", name := "S11", data := none
  , departure_time := ⟨2024, 1, 5, 9, 0, 0⟩
  , arrival_time := ⟨2024, 1, 5, 10, 0, 0⟩ }

/-- Claim C1 (divergence witnessed): with no prior snapshot, the same
day-of-month and departure three hours away, `_is_polling_allowed` returns
`false` — the first tick does not fetch, because the guard at sensor.py:130
reads `self.data is not None` while its own comment says "always allow first
polling (no previous data)". -/
theorem scheduler_first_tick_suppressed :
    freshState.data = none ∧ isPollingAllowed freshState ⟨2024, 5, 1, 10, 0, 0⟩ = false := by
  exact ⟨rfl, by decide⟩

/-- Claim C4 (divergence witnessed): with a prior snapshot, the same
day-of-month and departure a full two hours (7200 s) in the future — far
outside the 30-minute window — `_is_polling_allowed` still returns `true`:
the pre-departure window is never evaluated when a prior snapshot exists. -/
theorem scheduler_window_ignored_with_snapshot :
    warmState.data.isSome = true
    ∧ toSec warmState.departure_time - toSec (⟨2024, 5, 1, 10, 0, 0⟩ : PyDateTime) = 7200
    ∧ isPollingAllowed warmState ⟨2024, 5, 1, 10, 0, 0⟩ = true := by
  refine ⟨rfl, by decide, by decide⟩

/-- Counterexample for C7: 2024-02-05 and 2024-01-05 are different calendar
dates, but they share the day-of-month 5, so the rollover rule does not fire
and (with no prior snapshot, more than ten minutes after arrival) the
scheduler returns `false`. -/
theorem scheduler_rollover_counterexample :
    (⟨2024, 2, 5, 12, 0, 0⟩ : PyDateTime).month ≠ janState.departure_time.month
    ∧ isPollingAllowed janState ⟨2024, 2, 5, 12, 0, 0⟩ = false := by
  exact ⟨by decide, by decide⟩

/-- Claim C7 as amended: whenever the day-of-month of `now` differs from the
day-of-month of the stored departure time, `_is_polling_allowed` returns
`true`, regardless of the prior snapshot and of the 30/10-minute windows;
date changes that preserve the day-of-month are not detected by this rule. -/
theorem scheduler_day_change_always_polls (s : CoordinatorState) (now : PyDateTime)
    (h : now.day ≠ s.departure_time.day) :
    isPollingAllowed s now = true := by
  unfold isPollingAllowed
  simp [h]

/-- Witness for amended C7: one civil day after the schedule, with no prior
snapshot and far outside both windows, the scheduler polls. -/
theorem scheduler_day_change_always_polls_witness :
    isPollingAllowed janState ⟨2024, 1, 6, 23, 0, 0⟩ = true :=
  scheduler_day_change_always_polls janState ⟨2024, 1, 6, 23, 0, 0⟩ (by decide)

/-- Claim C8: a tick whose fetch yields `NotFound` (`None` from `get_train`)
leaves the coordinator state — snapshot and stored schedule instants —
unchanged and re-publishes the previous snapshot; a second `NotFound` tick
does the same, so repeated `NotFound` ticks never mutate the snapshot. -/
theorem coordinator_notfound_keeps_snapshot (s : CoordinatorState) (now : PyDateTime) :
    asyncUpdateData s now none = (s, s.data)
    ∧ asyncUpdateData (asyncUpdateData s now none).1 now none = (s, s.data) := by
  have h1 : asyncUpdateData s now none = (s, s.data) := by
    unfold asyncUpdateData
    split
    · rfl
    · rfl
  refine ⟨h1, ?_⟩
  rw [h1]
  exact h1

/-! ## Parse fixtures for the delay claims -/

deriving instance DecidableEq for Except

/-- Baseline nested `train` object: travelling, delay 7, no suppression. -/
def trainObjBase : TrainObj :=
  { line := "S11", train_name := "2641", direction := "Chiasso"
  , status := some "V", delay := some (some 7)
  , suppression_start := none, suppression_start_mir := none
  , suppression_end := none, suppression_end_mir := none }

/-- Baseline JSON record around `trainObjBase`. -/
def rec7 : JsonRecord :=
  { date := "20240505", dep_time := "08:30:00", arr_time := "09:30:00"
  , cancelled := false
  , dep_station := { station_id := "D1", station_ori_name := "Milano" }
  , arr_station := { station_id := "A1", station_ori_name := "Chiasso" }
  , journey_list := [{ train := trainObjBase, pass_list := [] }] }

/-- `rec7` with the `delay` key removed from the nested train object. -/
def recNoDelay : JsonRecord :=
  { rec7 with journey_list :=
      [{ train := { trainObjBase with delay := none }, pass_list := [] }] }

/-- Nested train object whose `delay` key holds JSON null. -/
def trainObjNullDelay : TrainObj := { trainObjBase with delay := some none }

/-- `rec7` with a null `delay`. -/
def recNullDelay : JsonRecord :=
  { rec7 with journey_list := [{ train := trainObjNullDelay, pass_list := [] }] }

/-- `rec7` with a negative `delay` of -3 minutes. -/
def recNegDelay : JsonRecord :=
  { rec7 with journey_list :=
      [{ train := { trainObjBase with delay := some (some (-3)) }, pass_list := [] }] }

/-- The train `get_train` produces from `rec7`. -/
def rec7train : TrenordTrain :=
  { train_id := "2641"
  , name := "S11 2641 - 08:30 da Milano per Chiasso"
  , status := TrainStatus.TRAVELLING
  , delay := 7
  , departure_time := ⟨2024, 5, 5, 8, 30, 0⟩
  , departure_station_id := "D1"
  , departure_station_name := "Milano"
  , arrival_time := ⟨2024, 5, 5, 9, 30, 0⟩
  , suppression := none
  , current_station := none }

/-- The train `get_train` produces from `recNullDelay`. -/
def rec0train : TrenordTrain := { rec7train with delay := 0 }

/-- The delay of a parse outcome that produced a train, `none` otherwise. -/
def parsedDelay (r : Except String (Option TrenordTrain)) : Option Int :=
  match r with
  | Except.ok (some t) => some t.delay
  | _ => none

/-- Shared characterization: when the first record's first journey entry has a
present `delay` key with value `v` and parsing succeeds with a train `t`, then
`t.delay` is `v` with null defaulted to `0`. -/
theorem getTrain_delay_eq (tid : String) (json : JsonRecord) (entry : JourneyEntry)
    (rest : List JourneyEntry) (tlrecs : List JsonRecord) (v : Option Int)
    (t : TrenordTrain)
    (hjl : json.journey_list = entry :: rest)
    (hv : entry.train.delay = some v)
    (ht : getTrain tid (json :: tlrecs) = Except.ok (some t)) :
    t.delay = v.getD 0 := by
  replace ht : getTrainFromRecord tid json = Except.ok (some t) := ht
  unfold getTrainFromRecord at ht
  rw [hjl] at ht
  cases hb : buildSuppression entry.train with
  | error e =>
    simp only [hb] at ht
    exact Except.noConfusion ht
  | ok sup =>
    simp only [hb, hv] at ht
    injection ht with h2
    injection h2 with h3
    rw [← h3]

/-- Counterexample for C6: a payload whose nested train object lacks the
`delay` key makes `get_train` raise `KeyError` (the access `train["delay"]`
is unguarded), so parsing does throw on a missing delay field. -/
theorem parse_missing_delay_raises :
    getTrain "2641" [recNoDelay] = Except.error "KeyError: delay" := by rfl

/-- Claim C6 as amended: when the `delay` key is present, a null value yields
delay `0` and an integer value passes through unchanged; a missing `delay` key
is a parse failure (`KeyError`), not a defaulted `0`. -/
theorem delay_normalization (tid : String) (json : JsonRecord) (entry : JourneyEntry)
    (rest : List JourneyEntry) (tlrecs : List JsonRecord) (v : Option Int)
    (t : TrenordTrain)
    (hjl : json.journey_list = entry :: rest)
    (hv : entry.train.delay = some v)
    (ht : getTrain tid (json :: tlrecs) = Except.ok (some t)) :
    t.delay = v.getD 0 :=
  getTrain_delay_eq tid json entry rest tlrecs v t hjl hv ht

/-- Witness for amended C6: parsing `rec7` (delay 7) succeeds and yields
delay 7. -/
theorem delay_normalization_witness :
    getTrain "2641" [rec7] = Except.ok (some rec7train)
    ∧ rec7train.delay = (some (7 : Int)).getD 0 :=
  ⟨by decide, delay_normalization "2641" rec7 { train := trainObjBase, pass_list := [] }
            [] [] (some 7) rec7train rfl rfl (by decide)⟩

/-- Counterexample for C9: an upstream delay of -3 passes through the parser
unchanged, so the parsed train's delay is negative. -/
theorem parse_negative_delay_passthrough :
    parsedDelay (getTrain "2641" [recNegDelay]) = some (-3) ∧ (-3 : Int) < 0 :=
  ⟨by rfl, by decide⟩

/-- Claim C9 as amended: the parsed delay is always a present integer (null is
defaulted to 0), and it is non-negative whenever the upstream value is null or
non-negative; negative upstream values pass through unchanged, so
non-negativity is not guaranteed in general. -/
theorem delay_nonnegative_for_nonnegative_upstream (tid : String) (json : JsonRecord)
    (entry : JourneyEntry) (rest : List JourneyEntry) (tlrecs : List JsonRecord)
    (v : Option Int) (t : TrenordTrain)
    (hjl : json.journey_list = entry :: rest)
    (hv : entry.train.delay = some v)
    (hnn : ∀ n, v = some n → 0 ≤ n)
    (ht : getTrain tid (json :: tlrecs) = Except.ok (some t)) :
    0 ≤ t.delay := by
  rw [getTrain_delay_eq tid json entry rest tlrecs v t hjl hv ht]
  cases v with
  | none => simp
  | some n => simpa using hnn n rfl

/-- Witness for amended C9: parsing `recNullDelay` (a null upstream delay)
yields the non-negative delay 0. -/
theorem delay_nonnegative_witness :
    (0 : Int) ≤ rec0train.delay :=
  delay_nonnegative_for_nonnegative_upstream "2641" recNullDelay
    { train := trainObjNullDelay, pass_list := [] } [] [] none rec0train
    rfl rfl (fun _n hn => nomatch hn) (by decide)
